import Mathlib

/-
Verification development for the Singapore transport query agent.

The embedding follows the Python sources:
  app/repositories/lta_repository.py  (Transit Data Client and Stop Resolver)
  app/services/transport_service.py   (Transport Facade)
  app/services/agent_service.py       (Query Pipeline: intent, parameters, dispatch, answer)

Python strings are modelled as Lean strings; the Python operations
str.lower, str.strip and the substring test (needle in hay) are modelled
over the character list of the string.  Code that can raise is modelled
with Except; the outcomes of remote calls (HTTP, language model) are
supplied as explicit parameters, so every behavior of the outside world
is a point in the quantification domain of the theorems.
-/

/-- Python str.lower modelled on the character list (ASCII case folding). -/
def pyLower (l : List Char) : List Char := l.map Char.toLower

/-- Python str.strip modelled on the character list: drop whitespace at both ends. -/
def pyStrip (l : List Char) : List Char :=
  ((l.dropWhile Char.isWhitespace).reverse.dropWhile Char.isWhitespace).reverse

/-- Helper for the substring test: does the needle occur at the head of the haystack. -/
def listStartsWith : List Char → List Char → Bool
  | [], _ => true
  | _ :: _, [] => false
  | c :: cs, d :: ds => c == d && listStartsWith cs ds

/-- Occurrence of a needle anywhere in a haystack (contiguous). -/
def containsSub (hay needle : List Char) : Bool :=
  match hay with
  | [] => listStartsWith needle []
  | _ :: t => listStartsWith needle hay || containsSub t needle

/-- Python membership test for strings: needle in hay. -/
def pyIn (needle hay : String) : Bool := containsSub hay.toList needle.toList

/-- A bus-stop record from the value list of the BusStops endpoint, with the
fields the code consults.  Description and RoadName are read with
dict.get(key, "") so they are plain strings defaulting to empty;
BusStopCode is read with dict.get(key) so it may be absent. -/
structure BusStop where
  BusStopCode : Option String
  Description : String
  RoadName : String
  deriving DecidableEq, Repr

/-- The while-loop of LTARepository.search_bus_stop.  The argument f gives, for
each skip offset, the behavior of get_bus_stops at that offset: the value
list of the JSON response, or the message of a raised exception.  The second
Nat argument is the current skip offset, the third counts fetch calls made,
the list accumulates all_stops.  Fuel bounds the number of iterations; none
means the fuel ran out before the loop terminated.  Mirrors: fetch a batch,
break on an empty page before extending, extend, break when the page is
shorter than batch_size = 500, else advance skip by 500. -/
def fetchLoop (f : Nat → Except String (List BusStop)) :
    Nat → Nat → Nat → List BusStop → Option (Nat × Except String (List BusStop))
  | 0, _, _, _ => none
  | fuel + 1, skip, calls, acc =>
    match f skip with
    | Except.error e => some (calls + 1, Except.error e)
    | Except.ok stops =>
      if stops.length = 0 then some (calls + 1, Except.ok acc)
      else if stops.length < 500 then some (calls + 1, Except.ok (acc ++ stops))
      else fetchLoop f fuel (skip + 500) (calls + 1) (acc ++ stops)

/-- The filter predicate of search_bus_stop: query_lower in Description.lower()
or query_lower in RoadName.lower(). -/
def matchesQuery (q : String) (s : BusStop) : Bool :=
  containsSub (pyLower s.Description.toList) (pyLower q.toList) ||
  containsSub (pyLower s.RoadName.toList) (pyLower q.toList)

/-- LTARepository.search_bus_stop.  The whole body sits in a try block whose
except-branch returns the empty list, so an error produced by the pagination
loop is mapped to Except.ok []; a terminated loop yields the first 10
matching stops in accumulation order.  The outer Except layer records
whether the function itself raises (it never does). -/
def search_bus_stop (f : Nat → Except String (List BusStop)) (fuel : Nat)
    (query : String) : Option (Except String (List BusStop)) :=
  match fetchLoop f fuel 0 0 [] with
  | none => none
  | some (_, Except.error _) => some (Except.ok [])
  | some (_, Except.ok all) =>
      some (Except.ok ((all.filter (matchesQuery query)).take 10))

/-- The envelope dictionaries built by TransportService, one optional field per
possible key. -/
structure Envelope (α : Type) where
  success : Bool
  data : Option α
  error : Option String
  count : Option Nat
  timestamp : Option String
  deriving DecidableEq, Repr

/-- Payload of a bus-arrival response, kept abstract as its raw JSON text. -/
structure ArrivalData where
  raw : String
  deriving DecidableEq, Repr

/-- Payload of a traffic-incidents or speed-bands response, kept abstract. -/
structure TrafficData where
  raw : String
  deriving DecidableEq, Repr

/-- TransportService.get_bus_arrival_info as a function of the outcome of the
wrapped repository call and of datetime.now().isoformat(). -/
def get_bus_arrival_info (call : Except String ArrivalData) (now : String) :
    Envelope ArrivalData :=
  match call with
  | Except.ok r => ⟨true, some r, none, none, some now⟩
  | Except.error e => ⟨false, none, some e, none, some now⟩

/-- The try/except of TransportService.search_bus_stops as a function of the
outcome of the wrapped resolver call: success carries data and count, failure
carries the error message. -/
def wrap_search (call : Except String (List BusStop)) : Envelope (List BusStop) :=
  match call with
  | Except.ok stops => ⟨true, some stops, none, some stops.length, none⟩
  | Except.error e => ⟨false, none, some e, none, none⟩

/-- TransportService.search_bus_stops: the facade wrapper composed with the
resolver. -/
def search_bus_stops (f : Nat → Except String (List BusStop)) (fuel : Nat)
    (query : String) : Option (Envelope (List BusStop)) :=
  (search_bus_stop f fuel query).map wrap_search

/-- TransportService.get_traffic_info as a function of the outcome of the
wrapped repository call. -/
def get_traffic_info (call : Except String TrafficData) (now : String) :
    Envelope TrafficData :=
  match call with
  | Except.ok r => ⟨true, some r, none, none, some now⟩
  | Except.error e => ⟨false, none, some e, none, some now⟩

/-- TransportService.get_traffic_speed_info as a function of the outcome of the
wrapped repository call. -/
def get_traffic_speed_info (call : Except String TrafficData) (now : String) :
    Envelope TrafficData :=
  match call with
  | Except.ok r => ⟨true, some r, none, none, some now⟩
  | Except.error e => ⟨false, none, some e, none, some now⟩

/-- Outcome of the single HTTP GET issued by LTARepository._make_request:
either a response with a status code and a body, or a network-layer failure
(connection error or timeout) with its message. -/
inductive HttpOutcome where
  | response (status : Nat) (body : String)
  | network (msg : String)
  deriving DecidableEq, Repr

/-- The failure values that can cross the _make_request boundary.  The status
and network constructors model the httpx.HTTPError family that the first
except-branch re-raises unchanged: status is the HTTPStatusError produced by
response.raise_for_status (it carries the status code and the response body),
network a connection or timeout error.  jsonDecode models the error raised by
response.json() on a malformed body, which the catch-all except-branch also
re-raises unchanged. -/
inductive RequestError where
  | status (code : Nat) (body : String)
  | network (msg : String)
  | jsonDecode (msg : String)
  deriving DecidableEq, Repr

/-- Failure shape the specification names TransportApiError: an HTTP-status
failure or a network failure.  Stated from the words of the specification, to
be compared with the error outcomes make_request actually produces. -/
def isTransportApiShape : RequestError → Bool
  | RequestError.status _ _ => true
  | RequestError.network _ => true
  | RequestError.jsonDecode _ => false

/-- LTARepository._make_request as a function of the HTTP layer.  The argument
out gives the outcome of the n-th GET attempt; the code issues exactly one GET
(attempt 0) with no retry loop.  On a response, raise_for_status raises an
HTTPStatusError unless the status is 2xx, and the error propagates; on a 2xx
response the body is JSON-decoded by parse, whose failure also propagates.
Both except-branches of the source log and re-raise the original exception,
so no outcome is wrapped or swallowed. -/
def make_request {α : Type} (parse : String → Except String α)
    (out : Nat → HttpOutcome) : Except RequestError α :=
  match out 0 with
  | HttpOutcome.network m => Except.error (RequestError.network m)
  | HttpOutcome.response st body =>
    if 200 ≤ st ∧ st < 300 then
      match parse body with
      | Except.ok v => Except.ok v
      | Except.error m => Except.error (RequestError.jsonDecode m)
    else Except.error (RequestError.status st body)

/-- The extracted-parameters mapping, one optional field per parameter name the
dispatch stage reads with dict.get. -/
structure Params where
  bus_stop_code : Option String
  service_no : Option String
  location_name : Option String
  road_name : Option String
  deriving DecidableEq, Repr

/-- The empty parameter mapping. -/
def Params.empty : Params := ⟨none, none, none, none⟩

/-- Python truthiness of a dict.get result holding a string: None and the empty
string are falsy. -/
def truthy : Option String → Bool
  | none => false
  | some s => !(s == "")

/-- Behavior of the outside world during one dispatch: the outcome of each
wrapped repository call, the page behavior and fuel for the resolver, and the
clock reading used for envelope timestamps. -/
structure Behavior where
  arrival : Option String → Option String → Except String ArrivalData
  pages : Nat → Except String (List BusStop)
  incidents : Except String TrafficData
  speeds : Except String TrafficData
  fuel : Nat
  now : String

/-- Observable remote-call events of the dispatch stage, in order. -/
inductive CallEv where
  | arrivalFetch (code : Option String) (svc : Option String)
  | resolverCall (q : String)
  | incidentsFetch
  | speedsFetch
  deriving DecidableEq, Repr

/-- The api_results dictionary built by TransportAgent.call_api, one optional
field per key the code can write. -/
structure ApiResults where
  bus_arrival : Option (Envelope ArrivalData)
  bus_stop_search : Option (Envelope (List BusStop))
  traffic_incidents : Option (Envelope TrafficData)
  traffic_speed : Option (Envelope TrafficData)
  error : Option String
  deriving DecidableEq, Repr

/-- The empty api_results dictionary. -/
def ApiResults.empty : ApiResults := ⟨none, none, none, none, none⟩

/-- TransportAgent.call_api as a function of the intent, the extracted
parameters and the behavior of the outside world; paired with the trace of
remote-call events.  This function covers the runs whose extracted parameters
are a mapping, so params.get never raises; every operation invoked inside the
try block is then a facade operation that catches its own exceptions, so
nothing inside the try raises and the except-branch error key is never
written on this path.  The non-mapping path, where params.get itself raises,
is modelled by dispatchOn below.  The result is none only when the resolver
fuel runs out (a model artifact of the unbounded while-loop). -/
def call_api (B : Behavior) (intent : String) (params : Params) :
    Option (ApiResults × List CallEv) :=
  if intent == "bus_arrival" then
    if truthy params.bus_stop_code then
      let env := get_bus_arrival_info (B.arrival params.bus_stop_code params.service_no) B.now
      some (⟨some env, none, none, none, none⟩,
            [CallEv.arrivalFetch params.bus_stop_code params.service_no])
    else if truthy params.location_name then
      let loc := params.location_name.getD ""
      match search_bus_stops B.pages B.fuel loc with
      | none => none
      | some senv =>
        let stops := senv.data.getD []
        if senv.success && !stops.isEmpty then
          let first := stops.headD ⟨none, "", ""⟩
          let env := get_bus_arrival_info (B.arrival first.BusStopCode params.service_no) B.now
          some (⟨some env, some senv, none, none, none⟩,
                [CallEv.resolverCall loc,
                 CallEv.arrivalFetch first.BusStopCode params.service_no])
        else some (⟨none, some senv, none, none, none⟩, [CallEv.resolverCall loc])
    else some (ApiResults.empty, [])
  else if intent == "bus_stop_search" then
    let location := if truthy params.location_name then params.location_name.getD ""
                    else params.road_name.getD ""
    if location == "" then some (ApiResults.empty, [])
    else
      match search_bus_stops B.pages B.fuel location with
      | none => none
      | some senv => some (⟨none, some senv, none, none, none⟩, [CallEv.resolverCall location])
  else if intent == "traffic_info" then
    some (⟨none, none, some (get_traffic_info B.incidents B.now),
           some (get_traffic_speed_info B.speeds B.now), none⟩,
          [CallEv.incidentsFetch, CallEv.speedsFetch])
  else
    some (ApiResults.empty, [])

/-- The post-processing of TransportAgent.understand_intent on the model reply:
response.content.strip().lower() is stored as the intent, with no further
normalization or closed-set check. -/
def classifyIntent (reply : String) : String := ⟨pyLower (pyStrip reply.toList)⟩

/-- Result of json.loads on the stripped extraction reply when decoding
succeeds.  A decoded JSON object is read into the parameter fields the
dispatch stage consults with dict.get; any other decoded JSON value (list,
string, number, boolean, null) is a nonMapping, carrying the message of the
AttributeError that an attribute access params.get on that value raises in
the dispatch stage. -/
inductive Extracted where
  | mapping (p : Params)
  | nonMapping (getErr : String)
  deriving DecidableEq, Repr

/-- TransportAgent.extract_parameters on the model reply: json.loads of the
stripped reply.  The argument parse models json.loads: none is a raised
json.JSONDecodeError, the only exception the except-branch catches, in which
case the empty mapping is substituted; any successfully decoded value,
mapping or not, is stored verbatim as the extracted parameters. -/
def extract_parameters (parse : String → Option Extracted) (reply : String) : Extracted :=
  (parse (String.mk (pyStrip reply.toList))).getD (Extracted.mapping Params.empty)

/-- The dispatch stage as entered from the pipeline, where the extracted
parameters hold whatever the extraction stage stored.  On a mapping the
branches run as in call_api.  On a non-mapping value, the bus_arrival and
bus_stop_search branches read params.get first, which raises an
AttributeError that the except-branch of the dispatch stage catches and
records under the top-level error key before any remote call is made; the
traffic_info branch never reads the parameters and runs unaffected; every
other intent dispatches nothing. -/
def dispatchOn (B : Behavior) (intent : String) (x : Extracted) :
    Option (ApiResults × List CallEv) :=
  match x with
  | Extracted.mapping p => call_api B intent p
  | Extracted.nonMapping getErr =>
    if intent == "bus_arrival" then
      some (⟨none, none, none, none, some getErr⟩, [])
    else if intent == "bus_stop_search" then
      some (⟨none, none, none, none, some getErr⟩, [])
    else if intent == "traffic_info" then
      some (⟨none, none, some (get_traffic_info B.incidents B.now),
             some (get_traffic_speed_info B.speeds B.now), none⟩,
            [CallEv.incidentsFetch, CallEv.speedsFetch])
    else some (ApiResults.empty, [])

/-- The post-processing of TransportAgent.generate_response on the model reply:
response.content.strip() is the final answer. -/
def generate_response (reply : String) : String := String.mk (pyStrip reply.toList)

/-- Replies of the language model at the three model-invoking stages of one
pipeline run. -/
structure Oracle where
  intentReply : String
  paramsReply : String
  answerReply : String

/-- The fields of the final pipeline state the claims consult.  The query
text, the context map and the message transcript are threaded through the
source unchanged and are not consulted by any claim, so they are omitted. -/
structure FinalState where
  intent : String
  extracted_params : Extracted
  api_results : ApiResults
  final_answer : String
  deriving DecidableEq, Repr

/-- One run of the compiled four-stage workflow: understand_intent, then
extract_parameters, then the dispatch stage, then generate_response, each
stage reading only fields written by earlier stages. -/
def runPipeline (parse : String → Option Extracted) (o : Oracle) (B : Behavior) :
    Option FinalState :=
  let intent := classifyIntent o.intentReply
  let params := extract_parameters parse o.paramsReply
  match dispatchOn B intent params with
  | none => none
  | some (res, _) => some ⟨intent, params, res, generate_response o.answerReply⟩

/-- A sample bus-stop record used to instantiate theorems at concrete inputs. -/
def wStopA : BusStop := ⟨some "83139", "Opp Blk 1", "Orchard Rd"⟩

/-- Page behavior serving two full pages of 500 records and a final page of
300 records. -/
def wPages3 : Nat → Except String (List BusStop) := fun skip =>
  if skip == 0 then Except.ok (List.replicate 500 wStopA)
  else if skip == 500 then Except.ok (List.replicate 500 wStopA)
  else Except.ok (List.replicate 300 wStopA)

/-- Page behavior whose first page is already empty. -/
def wPagesEmpty : Nat → Except String (List BusStop) := fun _ => Except.ok []

/-- Page behavior serving a single short page with one record. -/
def wPagesOne : Nat → Except String (List BusStop) := fun _ => Except.ok [wStopA]

/-- Page behavior that raises on every fetch. -/
def wPagesErr : Nat → Except String (List BusStop) := fun _ => Except.error "boom"

/-- Page behavior serving one full page and then raising, so that records are
already accumulated when the failure hits. -/
def wPagesErr2 : Nat → Except String (List BusStop) := fun skip =>
  if skip == 0 then Except.ok (List.replicate 500 wStopA) else Except.error "boom"

/-- A world in which every remote call succeeds. -/
def Bok : Behavior :=
  ⟨fun _ _ => Except.ok ⟨"arr"⟩, wPagesOne, Except.ok ⟨"ti"⟩, Except.ok ⟨"ts"⟩, 1, "t0"⟩

/-- A world in which the arrival and incidents calls raise. -/
def Bbad : Behavior :=
  ⟨fun _ _ => Except.error "boom", wPagesEmpty, Except.error "tboom",
   Except.ok ⟨"ts"⟩, 1, "t0"⟩

/-- Extracted parameters carrying a bus-stop code. -/
def pCode : Params := ⟨some "83139", none, none, none⟩

/-- Extracted parameters carrying only a location name. -/
def pLoc : Params := ⟨none, none, some "Orchard", none⟩

/-- The envelope the resolver facade produces in the world Bok for the query
Orchard. -/
def senvW : Envelope (List BusStop) := ⟨true, some [wStopA], none, some 1, none⟩

/-- Unfolding lemma: a fetch that raises ends the loop with the error after one
more call. -/
lemma fetchLoop_page_err (f : Nat → Except String (List BusStop)) (fuel skip calls : Nat)
    (acc : List BusStop) (e : String) (h : f skip = Except.error e) :
    fetchLoop f (fuel + 1) skip calls acc = some (calls + 1, Except.error e) := by
  simp [fetchLoop, h]

/-- Unfolding lemma: an empty page ends the loop, returning the accumulator
unchanged after one more call. -/
lemma fetchLoop_page_empty (f : Nat → Except String (List BusStop)) (fuel skip calls : Nat)
    (acc : List BusStop) (h : f skip = Except.ok []) :
    fetchLoop f (fuel + 1) skip calls acc = some (calls + 1, Except.ok acc) := by
  simp [fetchLoop, h]

/-- Unfolding lemma: a nonempty page shorter than 500 ends the loop, returning
the extended accumulator after one more call. -/
lemma fetchLoop_page_short (f : Nat → Except String (List BusStop)) (fuel skip calls : Nat)
    (acc stops : List BusStop) (h : f skip = Except.ok stops)
    (h0 : stops.length ≠ 0) (hlt : stops.length < 500) :
    fetchLoop f (fuel + 1) skip calls acc = some (calls + 1, Except.ok (acc ++ stops)) := by
  simp [fetchLoop, h, h0, hlt]

/-- Unfolding lemma: a full page of 500 records extends the accumulator and
continues at the next offset. -/
lemma fetchLoop_page_full (f : Nat → Except String (List BusStop)) (fuel skip calls : Nat)
    (acc stops : List BusStop) (h : f skip = Except.ok stops) (hlen : stops.length = 500) :
    fetchLoop f (fuel + 1) skip calls acc =
      fetchLoop f fuel (skip + 500) (calls + 1) (acc ++ stops) := by
  simp [fetchLoop, h, hlen]

/-- C1: each Transport Facade operation wraps every behavior of the underlying
Transit Data Client call into an envelope: success true with the payload (and
count for the list payload of the stop search) on success, success false with
the error message on any raised failure; being total functions of the call
outcome, the operations never raise past this boundary. -/
theorem C1_facade_envelope :
    ∀ now : String,
      (∀ r, get_bus_arrival_info (Except.ok r) now = ⟨true, some r, none, none, some now⟩) ∧
      (∀ e, get_bus_arrival_info (Except.error e) now = ⟨false, none, some e, none, some now⟩) ∧
      (∀ stops, wrap_search (Except.ok stops) = ⟨true, some stops, none, some stops.length, none⟩) ∧
      (∀ e, wrap_search (Except.error e) = ⟨false, none, some e, none, none⟩) ∧
      (∀ t, get_traffic_info (Except.ok t) now = ⟨true, some t, none, none, some now⟩) ∧
      (∀ e, get_traffic_info (Except.error e) now = ⟨false, none, some e, none, some now⟩) ∧
      (∀ t, get_traffic_speed_info (Except.ok t) now = ⟨true, some t, none, none, some now⟩) ∧
      (∀ e, get_traffic_speed_info (Except.error e) now = ⟨false, none, some e, none, some now⟩) := by
  intro now
  exact ⟨fun _ => rfl, fun _ => rfl, fun _ => rfl, fun _ => rfl,
         fun _ => rfl, fun _ => rfl, fun _ => rfl, fun _ => rfl⟩

/-- C2: the resolver pagination fetches at offsets 0, 500, 1000 and stops on an
empty page or a page shorter than 500.  For pages of 500, 500 and 300 records
exactly three fetch calls occur and all 1300 accumulated records reach the
filter step; for a first page of 0 records exactly one fetch call occurs and
the match sequence is empty. -/
theorem C2_pagination :
    (∀ (f : Nat → Except String (List BusStop)) (p1 p2 p3 : List BusStop)
       (q : String) (fuel : Nat),
      3 ≤ fuel →
      f 0 = Except.ok p1 → f 500 = Except.ok p2 → f 1000 = Except.ok p3 →
      p1.length = 500 → p2.length = 500 → p3.length = 300 →
      fetchLoop f fuel 0 0 [] = some (3, Except.ok (p1 ++ p2 ++ p3)) ∧
      (p1 ++ p2 ++ p3).length = 1300 ∧
      search_bus_stop f fuel q =
        some (Except.ok (((p1 ++ p2 ++ p3).filter (matchesQuery q)).take 10))) ∧
    (∀ (f : Nat → Except String (List BusStop)) (q : String) (fuel : Nat),
      1 ≤ fuel → f 0 = Except.ok [] →
      fetchLoop f fuel 0 0 [] = some (1, Except.ok []) ∧
      search_bus_stop f fuel q = some (Except.ok [])) := by
  constructor
  · intro f p1 p2 p3 q fuel hfuel h0 h1 h2 l1 l2 l3
    obtain ⟨k, rfl⟩ : ∃ k, fuel = k + 3 := ⟨fuel - 3, by omega⟩
    have step1 : fetchLoop f (k + 3) 0 0 [] = fetchLoop f (k + 2) 500 1 p1 := by
      have h := fetchLoop_page_full f (k + 2) 0 0 [] p1 h0 l1
      simpa using h
    have step2 : fetchLoop f (k + 2) 500 1 p1 = fetchLoop f (k + 1) 1000 2 (p1 ++ p2) := by
      have h := fetchLoop_page_full f (k + 1) 500 1 p1 p2 h1 l2
      simpa using h
    have step3 : fetchLoop f (k + 1) 1000 2 (p1 ++ p2) =
        some (3, Except.ok (p1 ++ p2 ++ p3)) := by
      have h := fetchLoop_page_short f k 1000 2 (p1 ++ p2) p3 h2
        (by omega) (by omega)
      simpa [List.append_assoc] using h
    have hloop : fetchLoop f (k + 3) 0 0 [] = some (3, Except.ok (p1 ++ p2 ++ p3)) :=
      step1.trans (step2.trans step3)
    refine ⟨hloop, ?_, by simp [search_bus_stop, hloop]⟩
    simp only [List.length_append, l1, l2, l3]
  · intro f q fuel hfuel h0
    obtain ⟨k, rfl⟩ : ∃ k, fuel = k + 1 := ⟨fuel - 1, by omega⟩
    have hloop : fetchLoop f (k + 1) 0 0 [] = some (1, Except.ok []) := by
      simpa using fetchLoop_page_empty f k 0 0 [] h0
    exact ⟨hloop, by simp [search_bus_stop, hloop]⟩

/-- Witness for C2 at concrete page behaviors: three pages of 500, 500 and 300
copies of a sample record, and a behavior whose first page is empty. -/
theorem C2_pagination_witness :
    (fetchLoop wPages3 3 0 0 [] =
      some (3, Except.ok (List.replicate 500 wStopA ++ List.replicate 500 wStopA ++
                          List.replicate 300 wStopA)) ∧
     (List.replicate 500 wStopA ++ List.replicate 500 wStopA ++
      List.replicate 300 wStopA).length = 1300 ∧
     search_bus_stop wPages3 3 "orchard" =
       some (Except.ok (((List.replicate 500 wStopA ++ List.replicate 500 wStopA ++
                          List.replicate 300 wStopA).filter (matchesQuery "orchard")).take 10))) ∧
    (fetchLoop wPagesEmpty 1 0 0 [] = some (1, Except.ok []) ∧
     search_bus_stop wPagesEmpty 1 "orchard" = some (Except.ok [])) :=
  ⟨C2_pagination.1 wPages3 (List.replicate 500 wStopA) (List.replicate 500 wStopA)
      (List.replicate 300 wStopA) "orchard" 3 (by omega) rfl rfl rfl
      (List.length_replicate ..) (List.length_replicate ..) (List.length_replicate ..),
   C2_pagination.2 wPagesEmpty "orchard" 1 (by omega) rfl⟩

/-- C3: after pagination the resolver keeps exactly the accumulated records
whose description or road name contains the query case-insensitively, and
returns the first at most 10 of them in catalog order: the result has length
at most 10 and is a subsequence of the accumulated catalog. -/
theorem C3_filter_truncate :
    ∀ (f : Nat → Except String (List BusStop)) (fuel : Nat) (q : String)
      (n : Nat) (all : List BusStop),
      fetchLoop f fuel 0 0 [] = some (n, Except.ok all) →
      search_bus_stop f fuel q = some (Except.ok ((all.filter (matchesQuery q)).take 10)) ∧
      ((all.filter (matchesQuery q)).take 10).length ≤ 10 ∧
      List.Sublist ((all.filter (matchesQuery q)).take 10) all := by
  intro f fuel q n all h
  refine ⟨by simp [search_bus_stop, h], ?_, (List.take_sublist _ _).trans (List.filter_sublist _)⟩
  simp only [List.length_take]
  omega

/-- Witness for C3 at a one-record catalog. -/
theorem C3_filter_truncate_witness :
    search_bus_stop wPagesOne 1 "orchard" =
      some (Except.ok (([wStopA].filter (matchesQuery "orchard")).take 10)) ∧
    (([wStopA].filter (matchesQuery "orchard")).take 10).length ≤ 10 ∧
    List.Sublist (([wStopA].filter (matchesQuery "orchard")).take 10) [wStopA] :=
  C3_filter_truncate wPagesOne 1 "orchard" 1 [wStopA] rfl

/-- C4: dispatch of the bus_arrival intent.  With a truthy stop-code parameter,
exactly one arrivals fetch with that code and no resolver call; otherwise with
a truthy location-name parameter, exactly one resolver call recorded under the
bus_stop_search key, followed by one arrivals fetch with the first resolved
code exactly when the resolution envelope is successful and nonempty; with
neither, no fetch at all and no bus_arrival entry in the results. -/
theorem C4_bus_arrival_dispatch :
    ∀ (B : Behavior) (p : Params),
      (truthy p.bus_stop_code = true →
        call_api B "bus_arrival" p =
          some (⟨some (get_bus_arrival_info (B.arrival p.bus_stop_code p.service_no) B.now),
                 none, none, none, none⟩,
                [CallEv.arrivalFetch p.bus_stop_code p.service_no])) ∧
      (truthy p.bus_stop_code = false → truthy p.location_name = true →
        ∀ senv : Envelope (List BusStop),
          search_bus_stops B.pages B.fuel (p.location_name.getD "") = some senv →
          ((senv.success && !(senv.data.getD []).isEmpty) = false →
            call_api B "bus_arrival" p =
              some (⟨none, some senv, none, none, none⟩,
                    [CallEv.resolverCall (p.location_name.getD "")])) ∧
          (∀ first rest, senv.data = some (first :: rest) → senv.success = true →
            call_api B "bus_arrival" p =
              some (⟨some (get_bus_arrival_info (B.arrival first.BusStopCode p.service_no) B.now),
                     some senv, none, none, none⟩,
                    [CallEv.resolverCall (p.location_name.getD ""),
                     CallEv.arrivalFetch first.BusStopCode p.service_no]))) ∧
      (truthy p.bus_stop_code = false → truthy p.location_name = false →
        call_api B "bus_arrival" p = some (ApiResults.empty, [])) := by
  intro B p
  refine ⟨?_, ?_, ?_⟩
  · intro hcode
    simp [call_api, hcode]
  · intro hcode hloc senv hsearch
    constructor
    · intro hguard
      simp [call_api, hcode, hloc, hsearch, hguard]
    · intro first rest hdata hsucc
      simp [call_api, hcode, hloc, hsearch, hdata, hsucc]
  · intro hcode hloc
    simp [call_api, hcode, hloc]

/-- Witness for C4 in the all-success world at the three parameter shapes. -/
theorem C4_bus_arrival_dispatch_witness :
    (call_api Bok "bus_arrival" pCode =
      some (⟨some (get_bus_arrival_info (Bok.arrival pCode.bus_stop_code pCode.service_no) Bok.now),
             none, none, none, none⟩,
            [CallEv.arrivalFetch pCode.bus_stop_code pCode.service_no])) ∧
    (call_api Bok "bus_arrival" pLoc =
      some (⟨some (get_bus_arrival_info (Bok.arrival wStopA.BusStopCode pLoc.service_no) Bok.now),
             some senvW, none, none, none⟩,
            [CallEv.resolverCall (pLoc.location_name.getD ""),
             CallEv.arrivalFetch wStopA.BusStopCode pLoc.service_no])) ∧
    (call_api Bok "bus_arrival" Params.empty = some (ApiResults.empty, [])) :=
  ⟨(C4_bus_arrival_dispatch Bok pCode).1 (by decide),
   ((C4_bus_arrival_dispatch Bok pLoc).2.1 (by decide) (by decide) senvW (by decide)).2
     wStopA [] (by decide) (by decide),
   (C4_bus_arrival_dispatch Bok Params.empty).2.2 (by decide) (by decide)⟩

/-- Counterexample to C5: the intent-classification stage stores the
lower-cased, trimmed model reply verbatim, with no fallback to general; for
the reply PIZZA (with a trailing blank) the stored intent is pizza, which is
outside the closed intent set and in particular is not general. -/
theorem C5_counterexample :
    classifyIntent "PIZZA " = "pizza" ∧
    (["bus_arrival", "bus_stop_search", "route_planning", "traffic_info",
      "service_info", "general"].contains (classifyIntent "PIZZA ")) = false := by
  constructor
  · decide
  · decide

/-- C5 amended: the stored intent is exactly the lower-cased, trimmed model
reply and may lie outside the closed set; the dispatch stage treats every
label outside its three recognized branches exactly like general (no remote
call, empty results), and the pipeline still completes for such labels. -/
theorem C5_intent_amended :
    ∀ (reply : String) (B : Behavior) (p : Params) (i : String)
      (parse : String → Option Extracted) (o : Oracle),
      classifyIntent reply = String.mk (pyLower (pyStrip reply.toList)) ∧
      (i ∉ (["bus_arrival", "bus_stop_search", "traffic_info"] : List String) →
        call_api B i p = some (ApiResults.empty, []) ∧
        call_api B i p = call_api B "general" p) ∧
      (classifyIntent o.intentReply ∉
          (["bus_arrival", "bus_stop_search", "traffic_info"] : List String) →
        runPipeline parse o B =
          some ⟨classifyIntent o.intentReply, extract_parameters parse o.paramsReply,
                ApiResults.empty, generate_response o.answerReply⟩) := by
  intro reply B p i parse o
  have general_empty : ∀ (B2 : Behavior) (p2 : Params),
      call_api B2 "general" p2 = some (ApiResults.empty, []) := fun _ _ => rfl
  have rogue_empty : ∀ (j : String) (B2 : Behavior) (p2 : Params),
      j ∉ (["bus_arrival", "bus_stop_search", "traffic_info"] : List String) →
      call_api B2 j p2 = some (ApiResults.empty, []) := by
    intro j B2 p2 hj
    simp only [List.mem_cons, List.not_mem_nil, or_false, not_or] at hj
    obtain ⟨h1, h2, h3⟩ := hj
    have e1 : (j == "bus_arrival") = false := beq_eq_false_iff_ne.mpr h1
    have e2 : (j == "bus_stop_search") = false := beq_eq_false_iff_ne.mpr h2
    have e3 : (j == "traffic_info") = false := beq_eq_false_iff_ne.mpr h3
    simp [call_api, e1, e2, e3]
  refine ⟨rfl, fun hi => ⟨rogue_empty i B p hi, ?_⟩, fun ho => ?_⟩
  · rw [rogue_empty i B p hi, general_empty B p]
  · have hd : dispatchOn B (classifyIntent o.intentReply)
        (extract_parameters parse o.paramsReply) = some (ApiResults.empty, []) := by
      cases hx : extract_parameters parse o.paramsReply with
      | mapping p2 => exact rogue_empty (classifyIntent o.intentReply) B p2 ho
      | nonMapping m =>
        simp only [List.mem_cons, List.not_mem_nil, or_false, not_or] at ho
        obtain ⟨h1, h2, h3⟩ := ho
        simp [dispatchOn, beq_eq_false_iff_ne.mpr h1, beq_eq_false_iff_ne.mpr h2,
              beq_eq_false_iff_ne.mpr h3]
    simp [runPipeline, hd]

/-- Witness for C5 amended: the rogue label pizza dispatches nothing and the
pipeline completes with empty results. -/
theorem C5_intent_amended_witness :
    classifyIntent "PIZZA " = String.mk (pyLower (pyStrip "PIZZA ".toList)) ∧
    (call_api Bok "pizza" pCode = some (ApiResults.empty, []) ∧
     call_api Bok "pizza" pCode = call_api Bok "general" pCode) ∧
    runPipeline (fun _ => none) ⟨"PIZZA ", "junk", " ok "⟩ Bok =
      some ⟨classifyIntent "PIZZA ",
            extract_parameters (fun _ => none) "junk",
            ApiResults.empty, generate_response " ok "⟩ :=
  ⟨(C5_intent_amended "PIZZA " Bok pCode "pizza" (fun _ => none)
      ⟨"PIZZA ", "junk", " ok "⟩).1,
   (C5_intent_amended "PIZZA " Bok pCode "pizza" (fun _ => none)
      ⟨"PIZZA ", "junk", " ok "⟩).2.1 (by decide),
   (C5_intent_amended "PIZZA " Bok pCode "pizza" (fun _ => none)
      ⟨"PIZZA ", "junk", " ok "⟩).2.2 (by decide)⟩

/-- Counterexample to C6: in a world where the arrivals call raises, dispatch
of bus_arrival with a stop code stores the failure envelope under the
bus_arrival key and the results mapping has no top-level error entry; the
except-branch of the dispatch stage never fires because the facade already
caught the failure. -/
theorem C6_counterexample :
    Bbad.arrival pCode.bus_stop_code pCode.service_no = Except.error "boom" ∧
    call_api Bbad "bus_arrival" pCode =
      some (⟨some ⟨false, none, some "boom", none, some "t0"⟩, none, none, none, none⟩,
            [CallEv.arrivalFetch (some "83139") none]) ∧
    (call_api Bbad "bus_arrival" pCode).map (fun r => r.1.error) = some none := by
  refine ⟨rfl, by decide, by decide⟩

/-- C6 amended: a Transit Data Client failure during dispatch surfaces as a
failure envelope recorded under the result key of the operation (bus_arrival
for the direct arrival path, traffic_incidents for the incidents fetch), with
no top-level error entry in the results mapping; dispatch returns without
raising and the pipeline still completes and produces an answer. -/
theorem C6_amended :
    ∀ (B : Behavior) (p : Params) (e eT : String)
      (parse : String → Option Extracted) (o : Oracle),
      (truthy p.bus_stop_code = true →
        B.arrival p.bus_stop_code p.service_no = Except.error e →
        call_api B "bus_arrival" p =
          some (⟨some ⟨false, none, some e, none, some B.now⟩, none, none, none, none⟩,
                [CallEv.arrivalFetch p.bus_stop_code p.service_no]) ∧
        (classifyIntent o.intentReply = "bus_arrival" →
         extract_parameters parse o.paramsReply = Extracted.mapping p →
         runPipeline parse o B =
           some ⟨"bus_arrival", Extracted.mapping p,
                 ⟨some ⟨false, none, some e, none, some B.now⟩, none, none, none, none⟩,
                 generate_response o.answerReply⟩)) ∧
      (B.incidents = Except.error eT →
        (call_api B "traffic_info" p).map (fun r => r.1.traffic_incidents) =
          some (some ⟨false, none, some eT, none, some B.now⟩) ∧
        (call_api B "traffic_info" p).map (fun r => r.1.error) = some none) := by
  intro B p e eT parse o
  constructor
  · intro hcode herr
    have hcall : call_api B "bus_arrival" p =
        some (⟨some ⟨false, none, some e, none, some B.now⟩, none, none, none, none⟩,
              [CallEv.arrivalFetch p.bus_stop_code p.service_no]) := by
      simp [call_api, hcode, get_bus_arrival_info, herr]
    refine ⟨hcall, fun hint hpar => ?_⟩
    simp [runPipeline, dispatchOn, hint, hpar, hcall]
  · intro herr
    simp [call_api, get_traffic_info, herr]

/-- Witness for C6 amended in the failing world with a stop-code parameter. -/
theorem C6_amended_witness :
    (call_api Bbad "bus_arrival" pCode =
      some (⟨some ⟨false, none, some "boom", none, some "t0"⟩, none, none, none, none⟩,
            [CallEv.arrivalFetch pCode.bus_stop_code pCode.service_no]) ∧
     runPipeline (fun _ => some (Extracted.mapping pCode))
         ⟨"BUS_ARRIVAL", "junk", "ans"⟩ Bbad =
       some ⟨"bus_arrival", Extracted.mapping pCode,
             ⟨some ⟨false, none, some "boom", none, some "t0"⟩, none, none, none, none⟩,
             generate_response "ans"⟩) ∧
    ((call_api Bbad "traffic_info" pCode).map (fun r => r.1.traffic_incidents) =
      some (some ⟨false, none, some "tboom", none, some "t0"⟩) ∧
     (call_api Bbad "traffic_info" pCode).map (fun r => r.1.error) = some none) := by
  have h := C6_amended Bbad pCode "boom" "tboom" (fun _ => some (Extracted.mapping pCode))
    ⟨"BUS_ARRIVAL", "junk", "ans"⟩
  have h1 := h.1 (by decide) rfl
  exact ⟨⟨h1.1, h1.2 (by decide) rfl⟩, h.2 rfl⟩

/-- C7: if any fetch raises during pagination, the resolver aborts and returns
the empty sequence, discarding whatever was accumulated, and the facade caller
sees a success envelope with empty data and count 0, exactly the envelope of
an empty resolution, never a distinguishable partial success. -/
theorem C7_abort_on_error :
    ∀ (f : Nat → Except String (List BusStop)) (fuel : Nat) (q : String)
      (n : Nat) (e : String),
      fetchLoop f fuel 0 0 [] = some (n, Except.error e) →
      search_bus_stop f fuel q = some (Except.ok []) ∧
      search_bus_stops f fuel q = some ⟨true, some [], none, some 0, none⟩ := by
  intro f fuel q n e h
  have hs : search_bus_stop f fuel q = some (Except.ok []) := by
    simp [search_bus_stop, h]
  exact ⟨hs, by simp [search_bus_stops, hs, wrap_search]⟩

/-- Witness for C7 where the first page yields 500 records and the second fetch
raises: the 500 accumulated records are discarded. -/
theorem C7_abort_on_error_witness :
    search_bus_stop wPagesErr2 2 "orchard" = some (Except.ok []) ∧
    search_bus_stops wPagesErr2 2 "orchard" = some ⟨true, some [], none, some 0, none⟩ := by
  have hloop : fetchLoop wPagesErr2 2 0 0 [] = some (2, Except.error "boom") := by
    rw [fetchLoop_page_full wPagesErr2 1 0 0 [] (List.replicate 500 wStopA) rfl
      (List.length_replicate ..)]
    rw [fetchLoop_page_err wPagesErr2 0 500 1 ([] ++ List.replicate 500 wStopA) "boom" rfl]
  exact C7_abort_on_error wPagesErr2 2 "orchard" 2 "boom" hloop

/-- C8: when the extraction-stage model reply does not parse as the expected
structured mapping, the stage substitutes the empty parameter mapping: the
except-branch of the source catches only json.JSONDecodeError, so the model
reply of valid JSON list shape, decoding without exception to a non-mapping
value, is stored verbatim as the extracted parameters, which differ from the
empty mapping; the two runs then diverge observably at dispatch, the verbatim
value producing a top-level error entry where the empty mapping produces an
empty results mapping. -/
theorem C8_counterexample :
    extract_parameters
        (fun _ => some (Extracted.nonMapping "list object has no attribute get"))
        "[1, 2]" =
      Extracted.nonMapping "list object has no attribute get" ∧
    Extracted.nonMapping "list object has no attribute get" ≠
      Extracted.mapping Params.empty ∧
    runPipeline (fun _ => some (Extracted.nonMapping "list object has no attribute get"))
        ⟨"bus_arrival", "[1, 2]", "ans"⟩ Bok =
      some ⟨"bus_arrival", Extracted.nonMapping "list object has no attribute get",
            ⟨none, none, none, none, some "list object has no attribute get"⟩,
            generate_response "ans"⟩ ∧
    runPipeline (fun _ => some (Extracted.mapping Params.empty))
        ⟨"bus_arrival", "[1, 2]", "ans"⟩ Bok =
      some ⟨"bus_arrival", Extracted.mapping Params.empty,
            ApiResults.empty, generate_response "ans"⟩ := by
  exact ⟨rfl, by decide, by decide, by decide⟩

/-- C8 amended: a model reply whose JSON decoding raises is replaced by the
empty parameter mapping, and the pipeline continues into the dispatch stage
with it; a reply decoding to a valid non-mapping JSON value is stored
verbatim as the extracted parameters, and dispatch of the bus_arrival intent
then records the attribute error raised by reading them under the top-level
error key, still continuing the pipeline to the synthesis stage instead of
aborting. -/
theorem C8_extract_fallback_amended :
    ∀ (parse : String → Option Extracted) (reply : String) (o : Oracle) (B : Behavior),
      (parse (String.mk (pyStrip reply.data)) = none →
        extract_parameters parse reply = Extracted.mapping Params.empty ∧
        (o.paramsReply = reply →
          runPipeline parse o B =
            (call_api B (classifyIntent o.intentReply) Params.empty).map
              (fun r => ⟨classifyIntent o.intentReply, Extracted.mapping Params.empty,
                         r.1, generate_response o.answerReply⟩))) ∧
      (∀ m, parse (String.mk (pyStrip reply.data)) = some (Extracted.nonMapping m) →
        extract_parameters parse reply = Extracted.nonMapping m ∧
        (o.paramsReply = reply → classifyIntent o.intentReply = "bus_arrival" →
          runPipeline parse o B =
            some ⟨"bus_arrival", Extracted.nonMapping m,
                  ⟨none, none, none, none, some m⟩,
                  generate_response o.answerReply⟩)) := by
  intro parse reply o B
  constructor
  · intro h
    have hextr : extract_parameters parse reply = Extracted.mapping Params.empty := by
      simp [extract_parameters, String.toList, h]
    refine ⟨hextr, fun ho => ?_⟩
    cases hc : call_api B (classifyIntent o.intentReply) Params.empty <;>
      simp [runPipeline, dispatchOn, ho, hextr, hc]
  · intro m h
    have hextr : extract_parameters parse reply = Extracted.nonMapping m := by
      simp [extract_parameters, String.toList, h]
    refine ⟨hextr, fun ho hint => ?_⟩
    simp [runPipeline, dispatchOn, ho, hextr, hint]

/-- Witness for C8 amended at a decode failure and at a valid non-mapping
reply in the all-success world. -/
theorem C8_extract_fallback_amended_witness :
    (extract_parameters (fun _ => none) "junk" = Extracted.mapping Params.empty ∧
     runPipeline (fun _ => none) ⟨"TRAFFIC_INFO", "junk", " ok "⟩ Bok =
       (call_api Bok (classifyIntent "TRAFFIC_INFO") Params.empty).map
         (fun r => ⟨classifyIntent "TRAFFIC_INFO", Extracted.mapping Params.empty,
                    r.1, generate_response " ok "⟩)) ∧
    (extract_parameters (fun _ => some (Extracted.nonMapping "attr")) "[1, 2]" =
       Extracted.nonMapping "attr" ∧
     runPipeline (fun _ => some (Extracted.nonMapping "attr"))
         ⟨"BUS_ARRIVAL", "[1, 2]", "ans"⟩ Bok =
       some ⟨"bus_arrival", Extracted.nonMapping "attr",
             ⟨none, none, none, none, some "attr"⟩, generate_response "ans"⟩) := by
  have h := C8_extract_fallback_amended (fun _ => none) "junk"
    ⟨"TRAFFIC_INFO", "junk", " ok "⟩ Bok
  have h2 := C8_extract_fallback_amended (fun _ => some (Extracted.nonMapping "attr"))
    "[1, 2]" ⟨"BUS_ARRIVAL", "[1, 2]", "ans"⟩ Bok
  have ha := h.1 rfl
  have hb := h2.2 "attr" rfl
  exact ⟨⟨ha.1, ha.2 rfl⟩, ⟨hb.1, hb.2 rfl (by decide)⟩⟩

/-- Counterexample to C9: a 2xx response whose body fails to JSON-decode
crosses the client boundary as a JSON-decode failure, which is not of the
status-or-network shape the specification calls TransportApiError; so failure
shapes other than that error kind do cross the boundary. -/
theorem C9_counterexample :
    make_request (fun _ => (Except.error "Expecting value" : Except String ArrivalData))
        (fun _ => HttpOutcome.response 200 "not json") =
      Except.error (RequestError.jsonDecode "Expecting value") ∧
    isTransportApiShape (RequestError.jsonDecode "Expecting value") = false := by
  exact ⟨rfl, rfl⟩

/-- C9 amended: a fetch receiving a non-2xx response fails with the status
error carrying the upstream code and body; a connection or timeout failure
fails with the network sub-kind of the same family; a 2xx response with an
undecodable body fails with a JSON-decode error, the only further shape; a
2xx response with a decodable body succeeds; and the client consults exactly
the first HTTP attempt, performing no retry. -/
theorem C9_client_failures :
    ∀ (parse : String → Except String ArrivalData) (out : Nat → HttpOutcome)
      (st : Nat) (body m : String) (v : ArrivalData),
      (out 0 = HttpOutcome.response st body → ¬(200 ≤ st ∧ st < 300) →
        make_request parse out = Except.error (RequestError.status st body)) ∧
      (out 0 = HttpOutcome.network m →
        make_request parse out = Except.error (RequestError.network m)) ∧
      (out 0 = HttpOutcome.response st body → (200 ≤ st ∧ st < 300) →
        parse body = Except.error m →
        make_request parse out = Except.error (RequestError.jsonDecode m)) ∧
      (out 0 = HttpOutcome.response st body → (200 ≤ st ∧ st < 300) →
        parse body = Except.ok v →
        make_request parse out = Except.ok v) ∧
      (∀ out2 : Nat → HttpOutcome, out2 0 = out 0 →
        make_request parse out2 = make_request parse out) := by
  intro parse out st body m v
  refine ⟨?_, ?_, ?_, ?_, ?_⟩
  · intro h1 h2
    simp [make_request, h1, h2]
  · intro h1
    simp [make_request, h1]
  · intro h1 h2 h3
    simp [make_request, h1, h2, h3]
  · intro h1 h2 h3
    simp [make_request, h1, h2, h3]
  · intro out2 h
    simp [make_request, h]

/-- Witness for C9 amended at concrete HTTP outcomes: a 404, a timeout, a good
2xx, a 2xx with a malformed body, and invariance under outcomes agreeing on
the single attempt made. -/
theorem C9_client_failures_witness :
    make_request (fun _ => (Except.ok ⟨"p"⟩ : Except String ArrivalData))
        (fun _ => HttpOutcome.response 404 "nf") =
      Except.error (RequestError.status 404 "nf") ∧
    make_request (fun _ => (Except.ok ⟨"p"⟩ : Except String ArrivalData))
        (fun _ => HttpOutcome.network "timeout") =
      Except.error (RequestError.network "timeout") ∧
    make_request (fun _ => (Except.error "bad" : Except String ArrivalData))
        (fun _ => HttpOutcome.response 200 "x") =
      Except.error (RequestError.jsonDecode "bad") ∧
    make_request (fun _ => (Except.ok ⟨"p"⟩ : Except String ArrivalData))
        (fun _ => HttpOutcome.response 200 "x") = Except.ok ⟨"p"⟩ ∧
    make_request (fun _ => (Except.ok ⟨"p"⟩ : Except String ArrivalData))
        (fun n => if n == 0 then HttpOutcome.response 404 "nf"
                  else HttpOutcome.response 200 "x") =
      make_request (fun _ => (Except.ok ⟨"p"⟩ : Except String ArrivalData))
        (fun _ => HttpOutcome.response 404 "nf") :=
  ⟨(C9_client_failures (fun _ => Except.ok ⟨"p"⟩)
      (fun _ => HttpOutcome.response 404 "nf") 404 "nf" "bad" ⟨"p"⟩).1 rfl (by omega),
   (C9_client_failures (fun _ => Except.ok ⟨"p"⟩)
      (fun _ => HttpOutcome.network "timeout") 404 "nf" "timeout" ⟨"p"⟩).2.1 rfl,
   (C9_client_failures (fun _ => Except.error "bad")
      (fun _ => HttpOutcome.response 200 "x") 200 "x" "bad" ⟨"p"⟩).2.2.1 rfl
      (by omega) rfl,
   (C9_client_failures (fun _ => Except.ok ⟨"p"⟩)
      (fun _ => HttpOutcome.response 200 "x") 200 "x" "bad" ⟨"p"⟩).2.2.2.1 rfl
      (by omega) rfl,
   (C9_client_failures (fun _ => Except.ok ⟨"p"⟩)
      (fun _ => HttpOutcome.response 404 "nf") 404 "nf" "bad" ⟨"p"⟩).2.2.2.2
      (fun n => if n == 0 then HttpOutcome.response 404 "nf"
                else HttpOutcome.response 200 "x") rfl⟩

/-- C10: for every behavior of the stop-listing fetch, including ones that
raise, a terminating resolver run returns an ok list of length at most 10
(it never raises), so the facade envelope is always a success whose data is a
list of at most 10 stops with matching count and whose error field is absent;
a pagination failure produces the very envelope of a zero-match search. -/
theorem C10_resolver_total :
    ∀ (f : Nat → Except String (List BusStop)) (fuel : Nat) (q : String),
      (∀ r, search_bus_stop f fuel q = some r →
        r.isOk = true ∧ (r.toOption.getD []).length ≤ 10) ∧
      (∀ env, search_bus_stops f fuel q = some env →
        env.success = true ∧ env.error = none ∧
        env.count = env.data.map List.length ∧ (env.data.getD []).length ≤ 10) ∧
      (∀ n e, fetchLoop f fuel 0 0 [] = some (n, Except.error e) →
        search_bus_stops f fuel q = search_bus_stops (fun _ => Except.ok []) 1 q) := by
  intro f fuel q
  rcases hfl : fetchLoop f fuel 0 0 [] with _ | ⟨n0, r0⟩
  · refine ⟨fun r hr => ?_, fun env henv => ?_, fun n e he => ?_⟩
    · simp [search_bus_stop, hfl] at hr
    · simp [search_bus_stops, search_bus_stop, hfl] at henv
    · exact Option.noConfusion he
  · rcases r0 with e0 | all
    · have hs : search_bus_stop f fuel q = some (Except.ok []) := by
        simp [search_bus_stop, hfl]
      refine ⟨fun r hr => ?_, fun env henv => ?_, fun n e he => ?_⟩
      · rw [hs] at hr
        cases hr
        exact ⟨rfl, by decide⟩
      · have h2 : search_bus_stops f fuel q = some (wrap_search (Except.ok [])) := by
          simp [search_bus_stops, hs]
        rw [h2] at henv
        cases henv
        exact ⟨rfl, rfl, rfl, by decide⟩
      · have h2 : search_bus_stops f fuel q = some (wrap_search (Except.ok [])) := by
          simp [search_bus_stops, hs]
        rw [h2]
        rfl
    · have hs : search_bus_stop f fuel q =
          some (Except.ok ((all.filter (matchesQuery q)).take 10)) := by
        simp [search_bus_stop, hfl]
      have hlen : ((all.filter (matchesQuery q)).take 10).length ≤ 10 := by
        simp only [List.length_take]
        omega
      refine ⟨fun r hr => ?_, fun env henv => ?_, fun n e he => ?_⟩
      · rw [hs] at hr
        cases hr
        exact ⟨rfl, hlen⟩
      · have h2 : search_bus_stops f fuel q =
            some (wrap_search (Except.ok ((all.filter (matchesQuery q)).take 10))) := by
          simp [search_bus_stops, hs]
        rw [h2] at henv
        cases henv
        exact ⟨rfl, rfl, rfl, hlen⟩
      · injection he with h1
        injection h1 with ha hb
        exact Except.noConfusion hb

/-- Witness for C10 at a fetch behavior that raises on every call. -/
theorem C10_resolver_total_witness :
    ((Except.ok [] : Except String (List BusStop)).isOk = true ∧
     ((Except.ok [] : Except String (List BusStop)).toOption.getD []).length ≤ 10) ∧
    ((⟨true, some [], none, some 0, none⟩ : Envelope (List BusStop)).success = true ∧
     (⟨true, some [], none, some 0, none⟩ : Envelope (List BusStop)).error = none ∧
     (⟨true, some [], none, some 0, none⟩ : Envelope (List BusStop)).count =
       ((⟨true, some [], none, some 0, none⟩ : Envelope (List BusStop)).data.map List.length) ∧
     (((⟨true, some [], none, some 0, none⟩ : Envelope (List BusStop)).data.getD []).length ≤ 10)) ∧
    search_bus_stops wPagesErr 1 "x" = search_bus_stops (fun _ => Except.ok []) 1 "x" :=
  ⟨(C10_resolver_total wPagesErr 1 "x").1 (Except.ok []) rfl,
   (C10_resolver_total wPagesErr 1 "x").2.1 ⟨true, some [], none, some 0, none⟩ rfl,
   (C10_resolver_total wPagesErr 1 "x").2.2 1 "boom" rfl⟩
